import Mathlib

/-!
Verification development for the desired/confirmed state reconciliation
engine of `src/src/accessory.ts` (the Ventilator homebridge plugin).  The
source file contains two successive revisions of the accessory class; every
definition below embeds the FINAL revision (lines 366-626), whose line
numbers are cited throughout.

Modelling conventions:
* JS strings are lists of characters (`List Char`).
* The asynchronous `managequeue` tick and `communicate(0, ...)` forced
  refresh each split into a `...Start` step (everything up to the
  `await axios.get`, recording whether a transport request was issued) and
  a `...Finish` step (everything after the response or error arrives).
  The environment's answer is an `Option (List Char)`: `none` for a
  transport failure (connection error / timeout / non-2xx, all of which
  make `axios.get` throw), `some body` for a 2xx body.
* `SysState.inflight` counts the transport requests that have been issued
  and not yet completed; `Start` steps increment it when they issue a
  request and `Finish` steps decrement it.
* JS object assignment copies references.  After a successful
  `communicate(0, ...)` the code executes `this.status = data;
  this.queue = data;` (lines 578-579), leaving `queue` and `status`
  pointing at the SAME object; the field `SysState.aliased` records this.
  While aliased, the reference comparison `this.queue != this.status`
  (line 487) is false, and `this.queue[act] = value` (line 597) mutates
  the shared object, i.e. both records.
-/

namespace Vent

/-- The device state record: the three integer fields of the JSON object the
device reports (`{"power":p,"speed":s,"swing":w}`), also the shape of
`this.status` and `this.queue` (lines 371-376, 388-392). -/
structure DeviceState where
  power : Nat
  speed : Nat
  swing : Nat
deriving DecidableEq

/-- The three named fields of a `DeviceState`. -/
inductive Field
  | power
  | speed
  | swing
deriving DecidableEq

/-- Dynamic field read `obj[act]` for the three known field names. -/
def getField (d : DeviceState) : Field → Nat
  | Field.power => d.power
  | Field.speed => d.speed
  | Field.swing => d.swing

/-- Dynamic field write `obj[act] = value` for the three known field names. -/
def setField (d : DeviceState) : Field → Nat → DeviceState
  | Field.power, v => { d with power := v }
  | Field.speed, v => { d with speed := v }
  | Field.swing, v => { d with swing := v }

/-- The backslash character, the first character of every escape sequence
handled by the sanitizer chain (lines 560-567 / 521-528). -/
def bs : Char := Char.ofNat 92

/-- Leftmost, non-overlapping, global replacement of the two-character
pattern `a b` by `r`, continuing after the replacement — the semantics of
`String.prototype.replace` with a global two-character literal regex. -/
def replace2 (a b : Char) (r : List Char) : List Char → List Char
  | [] => []
  | [c] => [c]
  | c :: d :: rest =>
    if c = a ∧ d = b then r ++ replace2 a b r rest
    else c :: replace2 a b r (d :: rest)

/-- The escape-normalization chain of the sanitizer, exactly the eight
`.replace` calls of lines 521-528 (and 560-567).  In the source, each
replacement string in single quotes denotes: `'\\n'` = backslash n,
`'\\\''` = backslash apostrophe, `'\"'` = a double quote alone,
`'\\&'` = backslash ampersand, and so on — so seven of the eight calls
replace a sequence by itself and only `\"` is rewritten (to `"`). -/
def sanitizeEsc (l : List Char) : List Char :=
  l |> replace2 bs 'n' [bs, 'n']
    |> replace2 bs (Char.ofNat 39) [bs, Char.ofNat 39]
    |> replace2 bs '"' ['"']
    |> replace2 bs '&' [bs, '&']
    |> replace2 bs 'r' [bs, 'r']
    |> replace2 bs 't' [bs, 't']
    |> replace2 bs 'b' [bs, 'b']
    |> replace2 bs 'f' [bs, 'f']

/-- The control-byte strip `s.replace(/[\u0000-\u0019]+/g, '')`
(line 531 / 570): every character with code point at most `0x19` is
removed. -/
def stripCtrl (l : List Char) : List Char :=
  l.filter (fun c => decide (0x19 < c.toNat))

/-- The full sanitizer applied to a response body before `JSON.parse`:
the escape chain, then the control strip (lines 520-531). -/
def sanitize (l : List Char) : List Char :=
  stripCtrl (sanitizeEsc l)

/-- Decimal digit character for a digit value. -/
def digitChar (d : Nat) : Char := Char.ofNat (48 + d)

/-- Fuelled worker for `natChars`: the fuel only forces structural
recursion (so that the kernel can evaluate it); any fuel above `n` gives
the decimal rendering of `n`. -/
def natCharsGo (fuel : Nat) (n : Nat) : List Char :=
  match fuel with
  | 0 => []
  | fuel + 1 =>
    if n < 10 then [digitChar n]
    else natCharsGo fuel (n / 10) ++ [digitChar (n % 10)]

/-- The decimal rendering of a natural number, most significant digit
first. -/
def natChars (n : Nat) : List Char := natCharsGo (n + 1) n

/-- Numeric value of a list of decimal digit characters. -/
def digitsToNat (l : List Char) : Nat :=
  l.foldl (fun a c => a * 10 + (c.toNat - 48)) 0

/-- `{"power":` — the opening of the device's JSON record. -/
def litPower : List Char := ['{', '"', 'p', 'o', 'w', 'e', 'r', '"', ':']

/-- `,"speed":` — the middle of the device's JSON record. -/
def litSpeed : List Char := [',', '"', 's', 'p', 'e', 'e', 'd', '"', ':']

/-- `,"swing":` — the second middle of the device's JSON record. -/
def litSwing : List Char := [',', '"', 's', 'w', 'i', 'n', 'g', '"', ':']

/-- `}` — the close of the device's JSON record. -/
def litEnd : List Char := ['}']

/-- Consume an expected literal from the front of the input, or fail. -/
def dropLit (p l : List Char) : Option (List Char) :=
  if p.isPrefixOf l then some (l.drop p.length) else none

/-- Consume a non-empty run of decimal digits and return its value and the
rest of the input, or fail. -/
def parseNatField (l : List Char) : Option (Nat × List Char) :=
  let ds := l.takeWhile Char.isDigit
  if ds = [] then none else some (digitsToNat ds, l.dropWhile Char.isDigit)

/-- `JSON.parse` (line 534 / 573) restricted to the device's documented
response shape `{"power":p,"speed":s,"swing":w}` with non-negative integer
fields: `none` models `JSON.parse` throwing a `SyntaxError` on the cleaned
text (any text outside this shape, such as text with a stray backslash or
arbitrary garbage, is not valid JSON of the expected record shape). -/
def parseState (l : List Char) : Option DeviceState :=
  match dropLit litPower l with
  | none => none
  | some l1 =>
    match parseNatField l1 with
    | none => none
    | some (p, l2) =>
      match dropLit litSpeed l2 with
      | none => none
      | some l3 =>
        match parseNatField l3 with
        | none => none
        | some (s, l4) =>
          match dropLit litSwing l4 with
          | none => none
          | some l5 =>
            match parseNatField l5 with
            | none => none
            | some (w, l6) =>
              match dropLit litEnd l6 with
              | none => none
              | some l7 => if l7 = [] then some ⟨p, s, w⟩ else none

/-- The canonical serialization of a device state record in the device's
documented response shape (§6 of the design: a JSON object with the integer
fields `power`, `speed`, `swing`). -/
def serialize (r : DeviceState) : List Char :=
  litPower ++
    (natChars r.power ++
      (litSpeed ++ (natChars r.speed ++ (litSwing ++ (natChars r.swing ++ litEnd)))))

/-- The engine's mutable state: `status` (Confirmed, line 388), `queue`
(Desired, lines 372-376), the `processrequest` guard flag (line 377), the
`aliased` marker recording whether `queue` and `status` currently reference
the same JS object (true exactly after a successful `communicate(0, ...)`,
lines 578-579), and `inflight`, the instrumentation counter of transport
requests issued but not yet completed. -/
structure SysState where
  status : DeviceState
  queue : DeviceState
  aliased : Bool
  processrequest : Bool
  inflight : Nat
deriving DecidableEq

/-- A transport request issued by the engine: `command act v` is
`GET {base}/?act={act}&arg1={v}` (line 514), `getStatus` is
`GET {base}/getStatus` (line 558). -/
inductive Req
  | command (act : Field) (arg1 : Nat)
  | getStatus
deriving DecidableEq

/-- The diff-and-select logic of `managequeue` (lines 489-511): the counter
`i` starts at 1, block `i == 1` tests `speed`, block `i == 2` tests
`swing`, and `i >= 3` means no request; `power` is never tested.
Flattened, that is: first differing field in the order speed, swing. -/
def selectField (queue status : DeviceState) : Option (Field × Nat) :=
  if queue.speed ≠ status.speed then some (Field.speed, queue.speed)
  else if queue.swing ≠ status.swing then some (Field.swing, queue.swing)
  else none

/-- The synchronous part of a `managequeue` tick up to the `await axios.get`
(lines 486-514).  The outer test `this.queue != this.status` (line 487) is a
JS reference comparison: false exactly when the two fields alias the same
object.  The inner test reads the `processrequest` guard (line 488) — note
that this path never SETS the guard — and `selectField` picks the command.
Returns the new state and the request issued, if any. -/
def tickStart (st : SysState) : SysState × Option Req :=
  if st.aliased then (st, none)
  else if st.processrequest then (st, none)
  else
    match selectField st.queue st.status with
    | none => (st, none)
    | some (act, v) =>
      ({ st with inflight := st.inflight + 1 }, some (Req.command act v))

/-- How a `managequeue` tick's transport call ends (lines 512-542). -/
inductive TickOutcome
  /-- `axios.get` threw; caught at line 515, the cool-down release timer is
  scheduled (line 517) and the tick returns. -/
  | transportError
  /-- `JSON.parse` (line 534) threw on the sanitized body.  The `try` block
  of `managequeue` covers only the `axios.get` call (lines 513-519), so the
  exception escapes the async function as an unhandled rejection, and the
  cool-down release timer of line 542 is never scheduled. -/
  | uncaughtParse
  /-- The success path of lines 539-542 ran. -/
  | handled
deriving DecidableEq

/-- The rest of a `managequeue` tick after the transport call for field
`act` completes (lines 512-542).  `resp = none` models `axios.get`
throwing (timeout, connection failure, non-2xx status); `resp = some body`
models a 2xx response body.  On success: `this.status = data` (line 539)
and `this.queue[act] = data[act]` (line 540); `status` now references the
freshly parsed object, so `queue` and `status` never alias afterwards. -/
def tickFinish (st : SysState) (act : Field) (resp : Option (List Char)) :
    SysState × TickOutcome :=
  match resp with
  | none => ({ st with inflight := st.inflight - 1 }, TickOutcome.transportError)
  | some body =>
    match parseState (sanitize body) with
    | none => ({ st with inflight := st.inflight - 1 }, TickOutcome.uncaughtParse)
    | some d =>
      ({ st with
          status := d
          queue := setField st.queue act (getField d act)
          aliased := false
          inflight := st.inflight - 1 },
        TickOutcome.handled)

/-- The synchronous part of `communicate(0, ...)` up to the
`await axios.get` (lines 553-558 and the busy branch 585-593).  When the
guard is free, it is acquired (`this.processrequest = true`, line 555) and
the status request is issued.  When the guard is held, no request is
issued, a busy warning is printed, and `this.status` is overwritten with a
fresh all-zero object (lines 588-592) — which also breaks any aliasing of
`status` with `queue`. -/
def refreshStart (st : SysState) : SysState × Option Req :=
  if st.processrequest then
    ({ st with status := ⟨0, 0, 0⟩, aliased := false }, none)
  else
    ({ st with processrequest := true, inflight := st.inflight + 1 },
      some Req.getStatus)

/-- How the transport call of `communicate(0, ...)` ends (lines 556-584). -/
inductive RefreshOutcome
  /-- `axios.get` or `JSON.parse` threw; the `try` block of
  `communicate(0, ...)` covers both (lines 556-580), so the error is caught
  at line 580 and only logged; the cool-down release timer (line 584) is
  still scheduled. -/
  | caughtError
  /-- The success path of lines 578-579 ran: `this.status = data;
  this.queue = data;` — both now reference the same parsed object. -/
  | updated
deriving DecidableEq

/-- The rest of `communicate(0, ...)` after the transport call completes
(lines 556-584). -/
def refreshFinish (st : SysState) (resp : Option (List Char)) :
    SysState × RefreshOutcome :=
  match resp with
  | none => ({ st with inflight := st.inflight - 1 }, RefreshOutcome.caughtError)
  | some body =>
    match parseState (sanitize body) with
    | none => ({ st with inflight := st.inflight - 1 }, RefreshOutcome.caughtError)
    | some d =>
      ({ st with
          status := d
          queue := d
          aliased := true
          inflight := st.inflight - 1 },
        RefreshOutcome.updated)

/-- The cool-down release timer firing: `this.processrequest = false`
(the `setTimeout` callbacks at lines 517, 542 and 584). -/
def coolRelease (st : SysState) : SysState :=
  { st with processrequest := false }

/-- `communicate(1, act, value)` (lines 596-598): the dynamic write
`this.queue[act] = value`.  If `queue` and `status` alias the same object
(after a successful `communicate(0, ...)`), the write mutates that shared
object, i.e. both records. -/
def setDesired (st : SysState) (act : Field) (v : Nat) : SysState :=
  if st.aliased then
    { st with queue := setField st.queue act v, status := setField st.status act v }
  else
    { st with queue := setField st.queue act v }

/-- The two values HomeKit can write to the `Active` characteristic. -/
inductive ActiveValue
  | inactive
  | active
deriving DecidableEq

/-- `handleActiveSet` (lines 434-452): `INACTIVE` runs
`communicate(1, "speed", 0)`; the `ACTIVE` case's command is commented out
(lines 443-447), so it only logs and changes nothing. -/
def handleActiveSet (st : SysState) : ActiveValue → SysState
  | ActiveValue.inactive => setDesired st Field.speed 0
  | ActiveValue.active => st

/-- `handleRotationSpeedSet` (lines 456-462) on an integer percentage:
`num = Math.ceil(value / 25)` (for a natural number `value` this is
`(value + 24) / 25` in truncating division), clamped to 4, forced to 0 when
`value == 0`, then `communicate(1, "speed", num)`. -/
def handleRotationSpeedSet (st : SysState) (value : Nat) : SysState :=
  let num := (value + 24) / 25
  let num := if num ≥ 4 then 4 else num
  let num := if value = 0 then 0 else num
  setDesired st Field.speed num

/-- Iterated reconciliation ticks with no intervening caller activity. -/
def ticks : Nat → SysState → SysState
  | 0, st => st
  | n + 1, st => ticks n (tickStart st).1

theorem replace2_not_mem (a b : Char) (r l : List Char) (h : a ∉ l) :
    replace2 a b r l = l := by
  induction l using replace2.induct a b r with
  | case1 => rfl
  | case2 c => rfl
  | case3 c d rest hcd ih =>
    exact absurd (hcd.1 ▸ List.mem_cons_self c (d :: rest)) h
  | case4 c d rest hcd ih =>
    have : a ∉ d :: rest := fun hm => h (List.mem_cons_of_mem c hm)
    simp [replace2, hcd, ih this]

theorem sanitizeEsc_not_mem (l : List Char) (h : bs ∉ l) : sanitizeEsc l = l := by
  unfold sanitizeEsc
  simp only [replace2_not_mem _ _ _ _ h]

theorem digitChar_isDigit (d : Nat) (h : d < 10) : (digitChar d).isDigit = true := by
  interval_cases d <;> decide

theorem digitChar_toNat (d : Nat) (h : d < 10) : (digitChar d).toNat = 48 + d := by
  interval_cases d <;> decide

theorem natCharsGo_digits (fuel : Nat) :
    ∀ n, ∀ c ∈ natCharsGo fuel n, c.isDigit = true := by
  induction fuel with
  | zero => intro n c hc; simp [natCharsGo] at hc
  | succ fuel ih =>
    intro n c hc
    by_cases hn : n < 10
    · simp [natCharsGo, hn] at hc
      exact hc ▸ digitChar_isDigit n hn
    · simp [natCharsGo, hn] at hc
      rcases hc with hc | hc
      · exact ih (n / 10) c hc
      · exact hc ▸ digitChar_isDigit (n % 10) (Nat.mod_lt n (by omega))

theorem natChars_digits (n : Nat) : ∀ c ∈ natChars n, c.isDigit = true :=
  natCharsGo_digits (n + 1) n

theorem natCharsGo_ne_nil (fuel n : Nat) (h : 0 < fuel) : natCharsGo fuel n ≠ [] := by
  match fuel with
  | fuel + 1 =>
    by_cases hn : n < 10 <;> simp [natCharsGo, hn]

theorem natChars_ne_nil (n : Nat) : natChars n ≠ [] :=
  natCharsGo_ne_nil (n + 1) n (by omega)

theorem digitsToNat_go (fuel : Nat) :
    ∀ n, n < fuel → ∀ acc,
      List.foldl (fun a c => a * 10 + (c.toNat - 48)) acc (natCharsGo fuel n)
        = acc * 10 ^ (natCharsGo fuel n).length + n := by
  induction fuel with
  | zero => omega
  | succ fuel ih =>
    intro n hn acc
    by_cases h10 : n < 10
    · simp [natCharsGo, h10, digitChar_toNat n h10]
    · have hdiv : n / 10 < fuel := by
        have h1 : n / 10 < n := Nat.div_lt_self (by omega) (by omega)
        omega
      have hmod := Nat.mod_lt n (show 0 < 10 by omega)
      simp only [natCharsGo, if_neg h10, List.foldl_append, List.length_append,
        List.foldl_cons, List.foldl_nil, List.length_cons, List.length_nil,
        ih (n / 10) hdiv acc, digitChar_toNat (n % 10) hmod]
      have hdm := Nat.div_add_mod n 10
      ring_nf
      omega

theorem digitsToNat_natChars (n : Nat) : digitsToNat (natChars n) = n := by
  have h := digitsToNat_go (n + 1) n (by omega) 0
  simpa [digitsToNat, natChars] using h

theorem takeWhile_all_append {α : Type} (p : α → Bool) (l r : List α)
    (h : ∀ c ∈ l, p c = true) :
    (l ++ r).takeWhile p = l ++ r.takeWhile p := by
  induction l with
  | nil => simp
  | cons c cs ih =>
    simp only [List.cons_append, List.takeWhile_cons, h c (List.mem_cons_self c cs)]
    simp [ih (fun x hx => h x (List.mem_cons_of_mem c hx))]

theorem dropWhile_all_append {α : Type} (p : α → Bool) (l r : List α)
    (h : ∀ c ∈ l, p c = true) :
    (l ++ r).dropWhile p = r.dropWhile p := by
  induction l with
  | nil => simp
  | cons c cs ih =>
    simp only [List.cons_append, List.dropWhile_cons, h c (List.mem_cons_self c cs)]
    simp [ih (fun x hx => h x (List.mem_cons_of_mem c hx))]

theorem parseNatField_digits (n : Nat) (c : Char) (t : List Char)
    (hc : c.isDigit = false) :
    parseNatField (natChars n ++ c :: t) = some (n, c :: t) := by
  unfold parseNatField
  rw [takeWhile_all_append _ _ _ (natChars_digits n),
    dropWhile_all_append _ _ _ (natChars_digits n)]
  simp [List.takeWhile_cons, List.dropWhile_cons, hc, natChars_ne_nil n,
    digitsToNat_natChars n]

theorem parseNatField_litSpeed (n : Nat) (y : List Char) :
    parseNatField (natChars n ++ (litSpeed ++ y)) = some (n, litSpeed ++ y) := by
  have h : litSpeed ++ y = ',' :: (['"', 's', 'p', 'e', 'e', 'd', '"', ':'] ++ y) := rfl
  rw [h, parseNatField_digits n ',' _ (by decide), ← h]

theorem parseNatField_litSwing (n : Nat) (y : List Char) :
    parseNatField (natChars n ++ (litSwing ++ y)) = some (n, litSwing ++ y) := by
  have h : litSwing ++ y = ',' :: (['"', 's', 'w', 'i', 'n', 'g', '"', ':'] ++ y) := rfl
  rw [h, parseNatField_digits n ',' _ (by decide), ← h]

theorem parseNatField_litEnd (n : Nat) :
    parseNatField (natChars n ++ litEnd) = some (n, litEnd) := by
  have h : (litEnd : List Char) = '}' :: [] := rfl
  rw [h, parseNatField_digits n '}' [] (by decide), ← h]

theorem dropLit_append (p r : List Char) : dropLit p (p ++ r) = some r := by
  unfold dropLit
  rw [if_pos (List.isPrefixOf_iff_prefix.mpr (List.prefix_append p r)), List.drop_left]

theorem dropLit_litEnd : dropLit litEnd litEnd = some [] := by decide

theorem parse_serialize (r : DeviceState) : parseState (serialize r) = some r := by
  obtain ⟨p, s, w⟩ := r
  simp only [parseState, serialize, dropLit_append, parseNatField_litSpeed,
    parseNatField_litSwing, parseNatField_litEnd, dropLit_litEnd]
  rfl

theorem bs_not_mem_serialize (r : DeviceState) : bs ∉ serialize r := by
  intro hm
  rcases List.mem_append.mp hm with h | h
  · exact absurd h (by decide)
  rcases List.mem_append.mp h with h | h
  · exact absurd (natChars_digits _ _ h) (by decide)
  rcases List.mem_append.mp h with h | h
  · exact absurd h (by decide)
  rcases List.mem_append.mp h with h | h
  · exact absurd (natChars_digits _ _ h) (by decide)
  rcases List.mem_append.mp h with h | h
  · exact absurd h (by decide)
  rcases List.mem_append.mp h with h | h
  · exact absurd (natChars_digits _ _ h) (by decide)
  · exact absurd h (by decide)

theorem getField_setField_same (d : DeviceState) (f : Field) (v : Nat) :
    getField (setField d f v) f = v := by
  cases f <;> rfl

theorem getField_setField_ne (d : DeviceState) (f g : Field) (v : Nat)
    (h : g ≠ f) : getField (setField d f v) g = getField d g := by
  cases f <;> cases g <;> simp_all [getField, setField]

theorem selectField_ne_power (q s : DeviceState) (v : Nat) :
    selectField q s ≠ some (Field.power, v) := by
  by_cases h1 : q.speed = s.speed <;> by_cases h2 : q.swing = s.swing <;>
    simp [selectField, h1, h2]

/-- Claim C1: the claim says at most one transport call is ever in flight,
enforced by the `processrequest` guard.  The code violates it:
`managequeue` reads the guard (line 488) and schedules its release
(lines 517, 542) but never sets it, so its command request leaves
`processrequest` false; while that request is in flight,
`communicate(0, ...)` still sees the guard free and issues a second
request — two transport calls in flight at once. -/
theorem c1_single_flight_violation :
    (tickStart ⟨⟨0, 0, 0⟩, ⟨0, 2, 0⟩, false, false, 0⟩).2
        = some (Req.command Field.speed 2) ∧
    (tickStart ⟨⟨0, 0, 0⟩, ⟨0, 2, 0⟩, false, false, 0⟩).1.processrequest = false ∧
    (refreshStart (tickStart ⟨⟨0, 0, 0⟩, ⟨0, 2, 0⟩, false, false, 0⟩).1).2
        = some Req.getStatus ∧
    (refreshStart (tickStart ⟨⟨0, 0, 0⟩, ⟨0, 2, 0⟩, false, false, 0⟩).1).1.inflight
        = 2 := by
  decide

/-- Claim C2 (amended): `communicate(0, ...)` called while the guard is
held issues no transport request and leaves `queue` (Desired), the guard
and the in-flight count unchanged — but instead of leaving `status`
(Confirmed) untouched, it overwrites it with the all-zero record
(lines 588-592), a value that is not the decoded result of any transport
round-trip. -/
theorem c2_busy_refresh (st : SysState) (h : st.processrequest = true) :
    (refreshStart st).2 = none ∧
    (refreshStart st).1.queue = st.queue ∧
    (refreshStart st).1.status = ⟨0, 0, 0⟩ ∧
    (refreshStart st).1.processrequest = st.processrequest ∧
    (refreshStart st).1.inflight = st.inflight := by
  simp [refreshStart, h]

/-- Witness for `c2_busy_refresh` at a concrete in-flight state. -/
theorem c2_busy_refresh_witness :
    (⟨⟨1, 3, 1⟩, ⟨1, 3, 1⟩, false, true, 1⟩ : SysState).processrequest = true ∧
    (refreshStart ⟨⟨1, 3, 1⟩, ⟨1, 3, 1⟩, false, true, 1⟩).2 = none ∧
    (refreshStart ⟨⟨1, 3, 1⟩, ⟨1, 3, 1⟩, false, true, 1⟩).1.status = ⟨0, 0, 0⟩ :=
  ⟨by decide, (c2_busy_refresh _ (by decide)).1,
    (c2_busy_refresh _ (by decide)).2.2.1⟩

/-- Counterexample to claim C2 as stated: with Confirmed `{1,3,1}` and a
request in flight, the busy path of `communicate(0, ...)` issues no call
but does NOT leave Confirmed as it was. -/
theorem c2_busy_refresh_counterexample :
    (refreshStart ⟨⟨1, 3, 1⟩, ⟨1, 3, 1⟩, false, true, 2⟩).2 = none ∧
    (refreshStart ⟨⟨1, 3, 1⟩, ⟨1, 3, 1⟩, false, true, 2⟩).1.status
      ≠ (⟨1, 3, 1⟩ : DeviceState) := by
  decide

/-- Claim C3: on a failed command round-trip during a `managequeue` tick —
transport error (`axios.get` threw, caught at line 515) or decode error
(`JSON.parse` of the sanitized body threw) — neither `queue` (Desired) nor
`status` (Confirmed) is modified, so the next tick computes the same
diff. -/
theorem c3_failure_preserves_state (st : SysState) (act : Field)
    (resp : Option (List Char))
    (h : resp = none ∨
      ∃ body, resp = some body ∧ parseState (sanitize body) = none) :
    (tickFinish st act resp).1.queue = st.queue ∧
    (tickFinish st act resp).1.status = st.status ∧
    selectField (tickFinish st act resp).1.queue (tickFinish st act resp).1.status
      = selectField st.queue st.status := by
  rcases h with rfl | ⟨body, rfl, hb⟩
  · exact ⟨rfl, rfl, rfl⟩
  · simp [tickFinish, hb]

/-- Witness for `c3_failure_preserves_state` on a decode failure. -/
theorem c3_failure_preserves_state_witness :
    (some (['b', 'a', 'd'] : List Char) = none ∨
      ∃ body, some (['b', 'a', 'd'] : List Char) = some body ∧
        parseState (sanitize body) = none) ∧
    (tickFinish ⟨⟨1, 0, 1⟩, ⟨1, 2, 0⟩, false, false, 1⟩ Field.speed
        (some ['b', 'a', 'd'])).1.queue = ⟨1, 2, 0⟩ ∧
    (tickFinish ⟨⟨1, 0, 1⟩, ⟨1, 2, 0⟩, false, false, 1⟩ Field.speed
        (some ['b', 'a', 'd'])).1.status = ⟨1, 0, 1⟩ :=
  ⟨Or.inr ⟨_, rfl, by decide⟩,
    (c3_failure_preserves_state _ _ _ (Or.inr ⟨_, rfl, by decide⟩)).1,
    (c3_failure_preserves_state _ _ _ (Or.inr ⟨_, rfl, by decide⟩)).2.1⟩

/-- Claim C4: the claim says an unparsable sanitized body during a tick is
handled as a recoverable decode error and the tick terminates normally.
The code does not: the `try` of `managequeue` covers only the `axios.get`
(lines 513-519), so the `JSON.parse` exception (line 534) escapes the
async function (an unhandled promise rejection) and the guard-release
timer of line 542 is never scheduled — the outcome below is
`uncaughtParse`, not a handled error.  State is nevertheless left
unchanged. -/
theorem c4_parse_error_escapes :
    parseState (sanitize ['g', 'a', 'r', 'b', 'a', 'g', 'e']) = none ∧
    (tickFinish ⟨⟨0, 0, 0⟩, ⟨0, 2, 0⟩, false, false, 1⟩ Field.speed
        (some ['g', 'a', 'r', 'b', 'a', 'g', 'e'])).2 = TickOutcome.uncaughtParse ∧
    (tickFinish ⟨⟨0, 0, 0⟩, ⟨0, 2, 0⟩, false, false, 1⟩ Field.speed
        (some ['g', 'a', 'r', 'b', 'a', 'g', 'e'])).1.status = ⟨0, 0, 0⟩ ∧
    (tickFinish ⟨⟨0, 0, 0⟩, ⟨0, 2, 0⟩, false, false, 1⟩ Field.speed
        (some ['g', 'a', 'r', 'b', 'a', 'g', 'e'])).1.queue = ⟨0, 2, 0⟩ := by
  decide

/-- Claim C5: on an idle tick (guard free, `queue` and `status` not
aliased — and if they were aliased they would be equal, the
representation hypothesis), the diff tests `speed` then `swing` in that
order, exactly the first differing field is commanded with its `queue`
value, nothing is commanded when no field differs, and `power` is never
commanded. -/
theorem c5_diff_priority (st : SysState)
    (hrep : st.aliased = true → st.queue = st.status)
    (hidle : st.processrequest = false) :
    (st.queue.speed ≠ st.status.speed →
      (tickStart st).2 = some (Req.command Field.speed st.queue.speed)) ∧
    (st.queue.speed = st.status.speed → st.queue.swing ≠ st.status.swing →
      (tickStart st).2 = some (Req.command Field.swing st.queue.swing)) ∧
    (st.queue.speed = st.status.speed → st.queue.swing = st.status.swing →
      (tickStart st).2 = none) ∧
    ∀ v : Nat, (tickStart st).2 ≠ some (Req.command Field.power v) := by
  by_cases ha : st.aliased
  · have heq := hrep ha
    exact ⟨fun hne => absurd (by rw [heq]) hne,
      fun _ hne => absurd (by rw [heq]) hne,
      fun _ _ => by simp [tickStart, ha],
      fun v => by simp [tickStart, ha]⟩
  · refine ⟨fun hne => ?_, fun heq hne => ?_, fun heq1 heq2 => ?_, fun v => ?_⟩
    · simp [tickStart, ha, hidle, selectField, hne]
    · simp [tickStart, ha, hidle, selectField, heq, hne]
    · simp [tickStart, ha, hidle, selectField, heq1, heq2]
    · by_cases h1 : st.queue.speed = st.status.speed <;>
        by_cases h2 : st.queue.swing = st.status.swing <;>
        simp [tickStart, ha, hidle, selectField, h1, h2]

/-- Witness for `c5_diff_priority`: speed 2 is pending and swing also
differs — speed wins the priority order. -/
theorem c5_diff_priority_witness :
    (tickStart ⟨⟨0, 0, 1⟩, ⟨0, 2, 0⟩, false, false, 0⟩).2
      = some (Req.command Field.speed 2) :=
  (c5_diff_priority ⟨⟨0, 0, 1⟩, ⟨0, 2, 0⟩, false, false, 0⟩
    (by decide) (by decide)).1 (by decide)

/-- Claim C6: after a successful command round-trip for field `act`,
`status` (Confirmed) is overwritten entirely with the decoded response
(line 539), `queue[act]` is set to the device's echoed value for that
field (line 540), the other `queue` fields are untouched, and as a
consequence no later tick can select `act` again (until some state
changes): if the device clamped the request, the clamped value is the new
desired value. -/
theorem c6_echo_back (st : SysState) (act : Field) (body : List Char)
    (d : DeviceState) (h : parseState (sanitize body) = some d) :
    (tickFinish st act (some body)).1.status = d ∧
    getField (tickFinish st act (some body)).1.queue act = getField d act ∧
    (∀ f : Field, f ≠ act →
      getField (tickFinish st act (some body)).1.queue f = getField st.queue f) ∧
    ∀ v : Nat,
      selectField (tickFinish st act (some body)).1.queue
        (tickFinish st act (some body)).1.status ≠ some (act, v) := by
  have hstat : (tickFinish st act (some body)).1.status = d := by
    simp [tickFinish, h]
  have hq : (tickFinish st act (some body)).1.queue
      = setField st.queue act (getField d act) := by
    simp [tickFinish, h]
  refine ⟨hstat, ?_, ?_, fun v => ?_⟩
  · rw [hq]; exact getField_setField_same _ _ _
  · intro f hf; rw [hq]; exact getField_setField_ne _ _ _ _ hf
  rw [hq, hstat]
  cases act with
  | power => exact selectField_ne_power _ _ v
  | speed =>
    have hs : (setField st.queue Field.speed (getField d Field.speed)).speed
        = d.speed := getField_setField_same st.queue Field.speed _
    by_cases h2 : (setField st.queue Field.speed (getField d Field.speed)).swing
        = d.swing <;> simp [selectField, hs, h2]
  | swing =>
    have hw : (setField st.queue Field.swing (getField d Field.swing)).swing
        = d.swing := getField_setField_same st.queue Field.swing _
    by_cases h1 : (setField st.queue Field.swing (getField d Field.swing)).speed
        = d.speed <;> simp [selectField, hw, h1]

/-- Witness for `c6_echo_back`: desired speed 9, the device clamps to 4 and
echoes `{0,4,0}`; afterwards `queue.speed` is 4 and speed can no longer be
selected. -/
theorem c6_echo_back_witness :
    parseState (sanitize (serialize ⟨0, 4, 0⟩)) = some ⟨0, 4, 0⟩ ∧
    (tickFinish ⟨⟨0, 0, 0⟩, ⟨1, 9, 0⟩, false, false, 1⟩ Field.speed
        (some (serialize ⟨0, 4, 0⟩))).1.status = ⟨0, 4, 0⟩ ∧
    getField (tickFinish ⟨⟨0, 0, 0⟩, ⟨1, 9, 0⟩, false, false, 1⟩ Field.speed
        (some (serialize ⟨0, 4, 0⟩))).1.queue Field.speed = getField ⟨0, 4, 0⟩ Field.speed :=
  ⟨by decide,
    (c6_echo_back _ Field.speed _ _ (by decide)).1,
    (c6_echo_back _ Field.speed _ _ (by decide)).2.1⟩

/-- Claim C7 (amended): the sanitizer repairs only control-byte mangling —
of the eight documented escape replacements, seven map the sequence to
itself and only `\"` is rewritten — so the round-trip holds for manglings
that insert control bytes (U+0000-U+0019) anywhere into the serialized
record: stripping is exactly what `sanitize` performs and parsing recovers
the identical record. -/
theorem c7_ctrl_insertion_roundtrip (r : DeviceState) (t : List Char)
    (h : stripCtrl t = serialize r) :
    parseState (sanitize t) = some r := by
  have hbs : bs ∉ t := by
    intro hm
    have hmem : bs ∈ stripCtrl t := List.mem_filter.mpr ⟨hm, by decide⟩
    rw [h] at hmem
    exact bs_not_mem_serialize r hmem
  show parseState (stripCtrl (sanitizeEsc t)) = some r
  rw [sanitizeEsc_not_mem t hbs, h]
  exact parse_serialize r

/-- Witness for `c7_ctrl_insertion_roundtrip`: a tab inserted in front and
a NUL appended still decode to the original record. -/
theorem c7_ctrl_insertion_roundtrip_witness :
    stripCtrl (Char.ofNat 9 :: serialize ⟨1, 2, 1⟩ ++ [Char.ofNat 0])
      = serialize ⟨1, 2, 1⟩ ∧
    parseState (sanitize (Char.ofNat 9 :: serialize ⟨1, 2, 1⟩ ++ [Char.ofNat 0]))
      = some ⟨1, 2, 1⟩ :=
  ⟨by decide, c7_ctrl_insertion_roundtrip ⟨1, 2, 1⟩ _ (by decide)⟩

/-- Counterexample to claim C7 as stated: mangling a well-formed record by
inserting the documented spurious escape sequence backslash-`n` is NOT
undone by the sanitizer (its `\n` replacement maps the sequence to
itself), and parsing then fails instead of returning the identical
record. -/
theorem c7_escape_mangling_counterexample :
    sanitize (bs :: 'n' :: serialize ⟨0, 0, 0⟩) = bs :: 'n' :: serialize ⟨0, 0, 0⟩ ∧
    parseState (sanitize (bs :: 'n' :: serialize ⟨0, 0, 0⟩)) = none := by
  decide

/-- Claim C8: when every field of `queue` (Desired) equals the
corresponding field of `status` (Confirmed), a tick issues no transport
request and leaves the state exactly as it was, and this persists over any
number of subsequent ticks. -/
theorem c8_idempotent (st : SysState) (h : st.queue = st.status) :
    tickStart st = (st, none) ∧ ∀ n : Nat, ticks n st = st := by
  have h1 : tickStart st = (st, none) := by
    unfold tickStart
    by_cases ha : st.aliased <;> by_cases hp : st.processrequest <;>
      simp [ha, hp, selectField, h]
  refine ⟨h1, fun n => ?_⟩
  induction n with
  | zero => rfl
  | succ n ih => simp [ticks, h1, ih]

/-- Witness for `c8_idempotent` at a concrete converged state. -/
theorem c8_idempotent_witness :
    (⟨⟨1, 2, 1⟩, ⟨1, 2, 1⟩, false, false, 0⟩ : SysState).queue
      = (⟨⟨1, 2, 1⟩, ⟨1, 2, 1⟩, false, false, 0⟩ : SysState).status ∧
    tickStart ⟨⟨1, 2, 1⟩, ⟨1, 2, 1⟩, false, false, 0⟩
      = (⟨⟨1, 2, 1⟩, ⟨1, 2, 1⟩, false, false, 0⟩, none) ∧
    ticks 5 ⟨⟨1, 2, 1⟩, ⟨1, 2, 1⟩, false, false, 0⟩
      = ⟨⟨1, 2, 1⟩, ⟨1, 2, 1⟩, false, false, 0⟩ :=
  ⟨by decide, (c8_idempotent _ (by decide)).1, (c8_idempotent _ (by decide)).2 5⟩

/-- Claim C9: the claim says `communicate(1, act, value)` writes only
`queue[act]` and leaves `status` (Confirmed) unchanged.  The code violates
it: after a successful `communicate(0, ...)`, `this.queue` and
`this.status` reference the same object (lines 578-579), so the dynamic
write `this.queue[act] = value` (line 597) also mutates Confirmed — here
Confirmed's speed silently becomes 4 with no transport call. -/
theorem c9_setdesired_mutates_confirmed :
    (refreshFinish ⟨⟨0, 0, 0⟩, ⟨0, 0, 0⟩, false, true, 1⟩
        (some (serialize ⟨1, 2, 0⟩))).1.status = ⟨1, 2, 0⟩ ∧
    (refreshFinish ⟨⟨0, 0, 0⟩, ⟨0, 0, 0⟩, false, true, 1⟩
        (some (serialize ⟨1, 2, 0⟩))).1.aliased = true ∧
    (setDesired (refreshFinish ⟨⟨0, 0, 0⟩, ⟨0, 0, 0⟩, false, true, 1⟩
        (some (serialize ⟨1, 2, 0⟩))).1 Field.speed 4).status.speed = 4 ∧
    (setDesired (refreshFinish ⟨⟨0, 0, 0⟩, ⟨0, 0, 0⟩, false, true, 1⟩
        (some (serialize ⟨1, 2, 0⟩))).1 Field.speed 4).inflight
      = (refreshFinish ⟨⟨0, 0, 0⟩, ⟨0, 0, 0⟩, false, true, 1⟩
        (some (serialize ⟨1, 2, 0⟩))).1.inflight := by
  decide

/-- Claim C10: `handleActiveSet` is asymmetric — `INACTIVE` writes desired
speed 0 (power-off via the speed field) leaving the other desired fields
alone and issuing no request, while `ACTIVE` changes nothing at all (the
power-on command is commented out, lines 443-447). -/
theorem c10_active_asymmetry (st : SysState) :
    (handleActiveSet st ActiveValue.inactive).queue.speed = 0 ∧
    (handleActiveSet st ActiveValue.inactive).queue.power = st.queue.power ∧
    (handleActiveSet st ActiveValue.inactive).queue.swing = st.queue.swing ∧
    (handleActiveSet st ActiveValue.inactive).inflight = st.inflight ∧
    handleActiveSet st ActiveValue.active = st := by
  unfold handleActiveSet setDesired
  by_cases ha : st.aliased <;> simp [ha, setField]

end Vent
